import Mathlib

/-!
Shallow embedding of the channel and message controllers of the chat-server
repository (src/controllers/ChannelControllers.js and the messages controller
concatenated in the same file, plus src/routes/MessagesRoute.js).

Mongo documents are modelled as Lean structures; ObjectId values are `Nat`;
the persistent store is a `DB` record of lists; `findById` is `List.find?`
on the id field and `document.save()` replaces the stored record with the
in-memory one.  File-system effects of the photo handler are recorded as an
explicit event trace so that effect ordering can be stated.
-/

namespace ChatServer

/-- A user document (Directory Lookup collaborator). -/
structure User where
  id : Nat
  email : String
  deriving DecidableEq

/-- A message document: MessagesModel fields used by the controllers. -/
structure Message where
  id : Nat
  sender : Nat
  recipient : Nat
  content : String
  timestamp : Nat
  edited : Bool
  deleted : Bool
  pinned : Bool
  deriving DecidableEq

/-- A channel document: ChannelModel fields used by the controllers. -/
structure Channel where
  id : Nat
  name : String
  admin : Nat
  members : List Nat
  photo : Option String
  messages : List Nat
  deriving DecidableEq

/-- The persistent store plus the upload directory contents. -/
structure DB where
  users : List User
  channels : List Channel
  messages : List Message
  files : List String
  deriving DecidableEq

/-- Embeds `Channel.findById`. -/
def findChannel (db : DB) (cid : Nat) : Option Channel :=
  db.channels.find? (fun c => c.id == cid)

/-- Embeds `Message.findById`. -/
def findMessage (db : DB) (mid : Nat) : Option Message :=
  db.messages.find? (fun m => m.id == mid)

/-- Embeds `User.findById`. -/
def findUser (db : DB) (uid : Nat) : Option User :=
  db.users.find? (fun u => u.id == uid)

/-- Embeds the lookup by email used by the member handlers. -/
def findUserByEmail (db : DB) (email : String) : Option User :=
  db.users.find? (fun u => u.email == email)

/-- Embeds `channel.save()`: the stored document with the same id becomes the
in-memory document. -/
def saveChannel (db : DB) (c : Channel) : DB :=
  { db with channels := db.channels.map (fun x => if x.id == c.id then c else x) }

/-- Embeds `message.save()`. -/
def saveMessage (db : DB) (m : Message) : DB :=
  { db with messages := db.messages.map (fun x => if x.id == m.id then m else x) }

/-- An HTTP response: status code and body message. -/
structure Resp where
  status : Nat
  message : String
  deriving DecidableEq

/-- A response whose payload is a list of messages. -/
structure MsgsResp where
  status : Nat
  body : String
  messages : List Message
  deriving DecidableEq

/-- The Mongo `$or` filter of `getMessages`: the (sender, recipient) pair
matches the two users in either direction. -/
def matchesPair (u1 u2 : Nat) (m : Message) : Bool :=
  (m.sender == u1 && m.recipient == u2) || (m.sender == u2 && m.recipient == u1)

/-- Embeds the ascending-timestamp sort of the conversation query. -/
def sortByTimestamp (l : List Message) : List Message :=
  l.mergeSort (fun a b => decide (a.timestamp ≤ b.timestamp))

/-- Embeds `getMessages` (GetConversation): `user1` is `req.userId`, `user2` is
`req.body.id`; either may be absent. -/
def getMessages (db : DB) (user1 user2 : Option Nat) : MsgsResp :=
  match user1, user2 with
  | some u1, some u2 =>
      ⟨200, "",
        sortByTimestamp (db.messages.filter
          (fun m => matchesPair u1 u2 m && m.deleted == false))⟩
  | _, _ => ⟨400, "Both user IDs are required.", []⟩

/-- Embeds `getChannelMessages`: populate resolves each referenced message id to its
document (no filter on the deleted flag appears in the source). -/
def getChannelMessages (db : DB) (channelId : Nat) : MsgsResp :=
  match findChannel db channelId with
  | none => ⟨404, "Channel not found", []⟩
  | some ch => ⟨200, "", ch.messages.filterMap (fun mid => findMessage db mid)⟩

/-- Embeds `deleteMessage` (SoftDeleteMessage): `messageId` from params, `userId`
from the verified token. -/
def deleteMessage (db : DB) (messageId : Option Nat) (userId : Nat) : Resp × DB :=
  match messageId with
  | none => (⟨400, "Message ID is required"⟩, db)
  | some mid =>
    match findMessage db mid with
    | none => (⟨404, "Message not found"⟩, db)
    | some m =>
      if m.sender != userId then
        (⟨403, "Not authorized to delete this message"⟩, db)
      else
        (⟨200, "Message deleted successfully"⟩, saveMessage db { m with deleted := true })

/-- Embeds `pinMessage`: `req.isAdmin` is the elevated-privilege flag. -/
def pinMessage (db : DB) (messageId : Nat) (isAdmin : Bool) : Resp × DB :=
  match findMessage db messageId with
  | none => (⟨404, "Message not found."⟩, db)
  | some m =>
    if !isAdmin then
      (⟨403, "You are not authorized to pin this message."⟩, db)
    else if m.pinned then
      (⟨400, "Message is already pinned."⟩, db)
    else
      (⟨200, "Message pinned successfully."⟩, saveMessage db { m with pinned := true })

/-- Embeds `createChannel`: `newId` stands for the ObjectId Mongo assigns to the new
document. `User.find({ _id: { $in: members } })` returns every stored user
whose id occurs in `members`. -/
def createChannel (db : DB) (name : String) (members : List Nat)
    (userId : Nat) (newId : Nat) : Resp × DB :=
  match findUser db userId with
  | none => (⟨400, "Admin user not found."⟩, db)
  | some _ =>
    let validMembers := db.users.filter (fun u => members.contains u.id)
    if validMembers.length != members.length then
      (⟨400, "Some members are not valid users."⟩, db)
    else
      (⟨201, "ok"⟩,
        { db with channels :=
            db.channels ++ [⟨newId, name, userId, members, none, []⟩] })

/-- The body of `updateMemberRole` applied to an already-fetched snapshot of
the channel; the sequential handler is `promoteStep` of the fresh read, and
interleaved executions apply it to a stale read. -/
def promoteStep (snapshot : Option Channel) (targetId reqUserId : Nat)
    (db : DB) : Resp × DB :=
  match snapshot with
  | none => (⟨404, "Channel not found"⟩, db)
  | some ch =>
    if ch.admin != reqUserId then
      (⟨403, "Only the admin can update roles"⟩, db)
    else if !(ch.members.contains targetId) then
      (⟨404, "User is not a member"⟩, db)
    else
      (⟨200, "Member role updated successfully"⟩, saveChannel db { ch with admin := targetId })

/-- Embeds `updateMemberRole` (PromoteMember): read the channel, validate, write. -/
def updateMemberRole (db : DB) (channelId targetId reqUserId : Nat) : Resp × DB :=
  promoteStep (findChannel db channelId) targetId reqUserId db

/-- Two promotions of the same channel interleaved as read-read-write-write:
both requests snapshot the same initial state, then their saves land in
order, exactly what the source's findById-then-save allows. -/
def twoPromotionsInterleaved (db : DB) (channelId t1 a1 t2 a2 : Nat) :
    Resp × Resp × DB :=
  ((promoteStep (findChannel db channelId) t1 a1 db).1,
    (promoteStep (findChannel db channelId) t2 a2
      (promoteStep (findChannel db channelId) t1 a1 db).2).1,
    (promoteStep (findChannel db channelId) t2 a2
      (promoteStep (findChannel db channelId) t1 a1 db).2).2)

/-- Embeds `changeGroupName` (RenameChannel). -/
def changeGroupName (db : DB) (channelId : Nat) (name : String)
    (reqUserId : Nat) : Resp × DB :=
  match findChannel db channelId with
  | none => (⟨404, "Channel not found"⟩, db)
  | some ch =>
    if ch.admin != reqUserId then
      (⟨403, "Only the admin can change the group name"⟩, db)
    else
      (⟨200, "Group name updated successfully"⟩, saveChannel db { ch with name := name })

/-- Embeds `addMember`: the handler receives the verified actor `reqUserId` but its
body never reads it. -/
def addMember (db : DB) (channelId : Nat) (email : String)
    (reqUserId : Nat) : Resp × DB :=
  match findChannel db channelId with
  | none => (⟨404, "Channel not found"⟩, db)
  | some ch =>
    match findUserByEmail db email with
    | none => (⟨404, "User not found"⟩, db)
    | some u =>
      if ch.members.contains u.id then
        (⟨400, "User is already a member"⟩, db)
      else
        (⟨200, "Member added successfully"⟩,
          saveChannel db { ch with members := ch.members ++ [u.id] })

/-- Embeds `removeMember`: likewise never reads the actor identity. -/
def removeMember (db : DB) (channelId : Nat) (email : String)
    (reqUserId : Nat) : Resp × DB :=
  match findChannel db channelId with
  | none => (⟨404, "Channel not found"⟩, db)
  | some ch =>
    match findUserByEmail db email with
    | none => (⟨404, "User not found"⟩, db)
    | some u =>
      if !(ch.members.contains u.id) then
        (⟨400, "User is not a member"⟩, db)
      else
        (⟨200, "Member removed successfully"⟩,
          saveChannel db { ch with members := ch.members.filter (fun x => x != u.id) })

/-- A file-system or store effect of `setGroupPhoto`, in execution order.
ChannelControllers.js imports the callback fs API (line 6), not
fs.promises, and awaits `fs.unlink(...)` with no callback argument; per
documented Node semantics such a call throws TypeError synchronously and
deletes nothing, so the only unlink events this handler can produce are
failed attempts. -/
inductive FsEvent where
  | unlinkThrow (p : String)
  | commit (cid : Nat) (p : String)
  deriving DecidableEq

/-- The outcome of a `setGroupPhoto` request: an HTTP response, or no
response at all when the handler dies on an unhandled promise rejection. -/
inductive PhotoOutcome where
  | response (r : Resp)
  | noResponse
  deriving DecidableEq

/-- Embeds `setGroupPhoto` (SetChannelPhoto) with the faithful semantics of
its awaited callback-fs calls: every `await fs.unlink(p)` throws TypeError
and removes nothing.  Traced from the source: on a missing channelId the
throw at line 74 happens outside the inner try, the async callback rejects
unhandled and no response is sent; on channel-not-found and not-admin the
throws at lines 84/92 land in the catch at line 125, whose own cleanup
retry at line 129 throws again and is swallowed, and a 500 replaces the
404/403; on the success path the unlink of the old photo at line 102
throws inside its local try/catch and is merely logged, so the prior
artifact survives and only the new path is committed.  `file` is the
multer-staged artifact path (already present in `db.files`); `saveFails`
injects a rejection of `channel.save()`. -/
def setGroupPhoto (db : DB) (file : Option String) (channelId : Option Nat)
    (reqUserId : Nat) (saveFails : Bool) : PhotoOutcome × DB × List FsEvent :=
  match file with
  | none => (PhotoOutcome.response ⟨400, "No file uploaded"⟩, db, [])
  | some f =>
    match channelId with
    | none => (PhotoOutcome.noResponse, db, [FsEvent.unlinkThrow f])
    | some cid =>
      match findChannel db cid with
      | none =>
        (PhotoOutcome.response ⟨500, "Internal server error"⟩, db,
          [FsEvent.unlinkThrow f, FsEvent.unlinkThrow f])
      | some ch =>
        if ch.admin != reqUserId then
          (PhotoOutcome.response ⟨500, "Internal server error"⟩, db,
            [FsEvent.unlinkThrow f, FsEvent.unlinkThrow f])
        else
          let oldEvents := match ch.photo with
            | some old => [FsEvent.unlinkThrow old]
            | none => []
          if saveFails then
            (PhotoOutcome.response ⟨500, "Internal server error"⟩, db,
              oldEvents ++ [FsEvent.unlinkThrow f])
          else
            (PhotoOutcome.response ⟨200, "Group photo updated successfully"⟩,
              saveChannel db { ch with photo := some f },
              oldEvents ++ [FsEvent.commit cid f])

/-- Sample entities used by concrete witnesses and counterexamples. -/
def uA : User := ⟨10, "a@x.com"⟩

def uB : User := ⟨11, "b@x.com"⟩

def uC : User := ⟨12, "c@x.com"⟩

def mDel : Message := ⟨1, 10, 11, "hi", 5, false, true, false⟩

def mLive : Message := ⟨2, 10, 11, "yo", 6, false, false, false⟩

def mPin : Message := ⟨3, 11, 10, "news", 7, false, false, true⟩

def chTeam : Channel := ⟨1, "Team", 10, [10, 11, 12], none, [1, 2]⟩

def chPhoto : Channel := ⟨2, "Pics", 10, [10, 11], some "uploads/channels/old.png", []⟩

def dbSample : DB := ⟨[uA, uB, uC], [chTeam, chPhoto], [mDel, mLive, mPin],
  ["uploads/channels/old.png", "uploads/channels/new.png"]⟩

theorem mem_sortByTimestamp (l : List Message) (m : Message) :
    m ∈ sortByTimestamp l ↔ m ∈ l :=
  (List.mergeSort_perm l _).mem_iff

theorem sortByTimestamp_perm (l : List Message) : (sortByTimestamp l).Perm l :=
  List.mergeSort_perm l _

theorem sortByTimestamp_sorted (l : List Message) :
    (sortByTimestamp l).Pairwise (fun a b => a.timestamp ≤ b.timestamp) := by
  have h : (sortByTimestamp l).Pairwise
      (fun a b : Message => (decide (a.timestamp ≤ b.timestamp)) = true) := by
    apply List.sorted_mergeSort
    · intro a b c hab hbc
      simp only [decide_eq_true_eq] at hab hbc ⊢
      omega
    · intro a b
      simp only [Bool.or_eq_true, decide_eq_true_eq]
      omega
  exact h.imp (fun hab => by simpa using hab)

theorem find?_map_if {α : Type} (key : α → Nat) (l : List α) (c : α) (cid : Nat)
    (hc : key c = cid) (h : (l.find? (fun x => key x == cid)).isSome) :
    (l.map (fun x => if key x == key c then c else x)).find?
      (fun x => key x == cid) = some c := by
  induction l with
  | nil => simp [List.find?] at h
  | cons a l ih =>
    by_cases ha : key a = cid
    · have h1 : (key a == key c) = true := by simp [ha, hc]
      simp only [List.map_cons, h1, if_true]
      exact List.find?_cons_of_pos _ (by simp [hc])
    · have h1 : (key a == key c) = false := by simp [hc]; omega
      simp only [List.map_cons, h1, Bool.false_eq_true, if_false]
      rw [List.find?_cons_of_neg _ (by simp [ha])]
      apply ih
      rw [List.find?_cons_of_neg _ (by simp [ha])] at h
      exact h

theorem findChannel_save (db : DB) (cid : Nat) (c : Channel) (hc : c.id = cid)
    (h : (findChannel db cid).isSome) :
    findChannel (saveChannel db c) cid = some c :=
  find?_map_if Channel.id db.channels c cid hc h

theorem findMessage_save (db : DB) (mid : Nat) (m : Message) (hm : m.id = mid)
    (h : (findMessage db mid).isSome) :
    findMessage (saveMessage db m) mid = some m :=
  find?_map_if Message.id db.messages m mid hm h

theorem map_if_idem {α : Type} (key : α → Nat) (c : α) (l : List α) :
    (l.map (fun x => if key x == key c then c else x)).map
      (fun x => if key x == key c then c else x) =
      l.map (fun x => if key x == key c then c else x) := by
  induction l with
  | nil => rfl
  | cons a l ih =>
    simp only [List.map_cons, ih]
    congr 1
    by_cases h : key a = key c <;> simp [h]

theorem saveMessage_idem (db : DB) (m : Message) :
    saveMessage (saveMessage db m) m = saveMessage db m := by
  unfold saveMessage
  simp only []
  congr 1
  exact map_if_idem Message.id m db.messages

/-- C1 counterexample: in `dbSample`, message `mDel` has deleted = true, yet
`getChannelMessages` returns it: the source's populate of channel messages
carries no filter on the deleted flag. -/
theorem getChannelMessages_returns_deleted :
    mDel.deleted = true ∧ mDel ∈ (getChannelMessages dbSample 1).messages := by
  decide

/-- C1 (amended): soft-deleted messages are excluded from the direct read
path `getMessages`, which filters on deleted = false; `getChannelMessages`
does not exclude them. -/
theorem getMessages_excludes_deleted (db : DB) (u1 u2 : Option Nat)
    (m : Message) (hm : m ∈ (getMessages db u1 u2).messages) :
    m.deleted = false := by
  match u1, u2 with
  | some a, some b =>
    rw [getMessages, mem_sortByTimestamp, List.mem_filter] at hm
    have := hm.2
    simp only [Bool.and_eq_true, beq_iff_eq] at this
    exact this.2
  | none, _ => simp [getMessages] at hm
  | some a, none => simp [getMessages] at hm

/-- C1 witness: a live message that `getMessages` does return is not
deleted. -/
theorem getMessages_excludes_deleted_witness :
    mLive ∈ (getMessages dbSample (some 10) (some 11)).messages ∧
      mLive.deleted = false := by
  have hmem : mLive ∈ (getMessages dbSample (some 10) (some 11)).messages := by
    simp only [getMessages]
    rw [mem_sortByTimestamp]
    decide
  exact ⟨hmem, getMessages_excludes_deleted dbSample (some 10) (some 11) mLive hmem⟩

/-- C7: with both identifiers present, `getMessages` returns status 200 and
exactly the non-deleted messages whose (sender, recipient) pair matches the
unordered pair of the two users, sorted by timestamp ascending; with either
identifier missing it returns status 400 and no messages. -/
theorem getMessages_spec (db : DB) (u1 u2 : Nat) :
    ((getMessages db (some u1) (some u2)).status = 200 ∧
      (∀ m : Message, m ∈ (getMessages db (some u1) (some u2)).messages ↔
        (m ∈ db.messages ∧
          ((m.sender = u1 ∧ m.recipient = u2) ∨
            (m.sender = u2 ∧ m.recipient = u1)) ∧
          m.deleted = false)) ∧
      (getMessages db (some u1) (some u2)).messages.Perm
        (db.messages.filter (fun m => matchesPair u1 u2 m && m.deleted == false)) ∧
      (getMessages db (some u1) (some u2)).messages.Pairwise
        (fun a b => a.timestamp ≤ b.timestamp)) ∧
    (∀ v, getMessages db none v = ⟨400, "Both user IDs are required.", []⟩) ∧
    (∀ v, getMessages db v none = ⟨400, "Both user IDs are required.", []⟩) := by
  refine ⟨⟨rfl, ?_, sortByTimestamp_perm _, sortByTimestamp_sorted _⟩, ?_, ?_⟩
  · intro m
    rw [getMessages, mem_sortByTimestamp, List.mem_filter]
    simp only [matchesPair, Bool.and_eq_true, Bool.or_eq_true, beq_iff_eq]
  · intro v
    cases v <;> rfl
  · intro v
    cases v <;> rfl

/-- C5: pinMessage succeeds only for an elevated actor; for an elevated
actor, an existing already-pinned message yields status 400 AlreadyPinned
with the store unchanged; pinning an unpinned message succeeds and the
immediately repeated call fails 400 without further change. -/
theorem pinMessage_spec (db : DB) (mid : Nat) (isAdmin : Bool) :
    ((pinMessage db mid isAdmin).1.status = 200 → isAdmin = true) ∧
    (∀ m, findMessage db mid = some m → m.pinned = true →
      pinMessage db mid true = (⟨400, "Message is already pinned."⟩, db)) ∧
    (∀ m, findMessage db mid = some m → m.pinned = false →
      (pinMessage db mid true).1.status = 200 ∧
      pinMessage ((pinMessage db mid true).2) mid true =
        (⟨400, "Message is already pinned."⟩, (pinMessage db mid true).2)) := by
  refine ⟨?_, ?_, ?_⟩
  · cases isAdmin with
    | true => intro _; rfl
    | false =>
      intro h
      exfalso
      cases hfm : findMessage db mid with
      | none => simp [pinMessage, hfm] at h
      | some m => simp [pinMessage, hfm] at h
  · intro m hfm hp
    simp [pinMessage, hfm, hp]
  · intro m hfm hp
    have hmid : m.id = mid := by
      have := List.find?_some hfm
      simpa using this
    have hred : pinMessage db mid true =
        (⟨200, "Message pinned successfully."⟩, saveMessage db { m with pinned := true }) := by
      simp [pinMessage, hfm, hp]
    refine ⟨by rw [hred], ?_⟩
    rw [hred]
    have hfm2 : findMessage (saveMessage db { m with pinned := true }) mid =
        some { m with pinned := true } :=
      findMessage_save db mid { m with pinned := true } hmid (by rw [hfm]; rfl)
    simp [pinMessage, hfm2]

/-- C5 witness: in the sample store, pinning the already-pinned message 3
fails AlreadyPinned; pinning the unpinned message 2 succeeds and pinning it
again fails AlreadyPinned. -/
theorem pinMessage_spec_witness :
    pinMessage dbSample 3 true = (⟨400, "Message is already pinned."⟩, dbSample) ∧
    (pinMessage dbSample 2 true).1.status = 200 ∧
    pinMessage ((pinMessage dbSample 2 true).2) 2 true =
      (⟨400, "Message is already pinned."⟩, (pinMessage dbSample 2 true).2) := by
  refine ⟨?_, ?_, ?_⟩
  · exact (pinMessage_spec dbSample 3 true).2.1 mPin (by decide) (by decide)
  · exact ((pinMessage_spec dbSample 2 true).2.2 mLive (by decide) (by decide)).1
  · exact ((pinMessage_spec dbSample 2 true).2.2 mLive (by decide) (by decide)).2

/-- C6: deleteMessage fails 404 on an unknown id and 403 for any actor other
than the sender; invoked by the sender it succeeds with status 200 and the
message remains stored with deleted = true, with no precondition on the
previous value of the deleted flag, and invoking it again returns the very
same response and state (idempotent re-delete). -/
theorem deleteMessage_spec (db : DB) (mid uid : Nat) :
    (findMessage db mid = none →
      deleteMessage db (some mid) uid = (⟨404, "Message not found"⟩, db)) ∧
    (∀ m, findMessage db mid = some m →
      (m.sender ≠ uid →
        deleteMessage db (some mid) uid =
          (⟨403, "Not authorized to delete this message"⟩, db)) ∧
      (m.sender = uid →
        (deleteMessage db (some mid) uid).1.status = 200 ∧
        findMessage ((deleteMessage db (some mid) uid).2) mid =
          some { m with deleted := true } ∧
        deleteMessage ((deleteMessage db (some mid) uid).2) (some mid) uid =
          ((deleteMessage db (some mid) uid).1, (deleteMessage db (some mid) uid).2))) := by
  refine ⟨?_, ?_⟩
  · intro h
    simp [deleteMessage, h]
  · intro m hfm
    have hmid : m.id = mid := by
      have := List.find?_some hfm
      simpa using this
    refine ⟨?_, ?_⟩
    · intro hne
      simp [deleteMessage, hfm, hne]
    · intro heq
      subst heq
      have hred : deleteMessage db (some mid) m.sender =
          (⟨200, "Message deleted successfully"⟩, saveMessage db { m with deleted := true }) := by
        simp [deleteMessage, hfm]
      have hfm2 : findMessage (saveMessage db { m with deleted := true }) mid =
          some { m with deleted := true } :=
        findMessage_save db mid { m with deleted := true } hmid (by rw [hfm]; rfl)
      refine ⟨by rw [hred], by rw [hred]; exact hfm2, ?_⟩
      rw [hred]
      have heta : ({ { m with deleted := true } with deleted := true } : Message) =
          { m with deleted := true } := rfl
      simp [deleteMessage, hfm2, heta, saveMessage_idem]

/-- C6 witness: message 1 of the sample store is already deleted and its
sender is user 10: deleting it again as user 10 still succeeds and leaves
deleted = true; user 11 gets 403; an unknown id gets 404. -/
theorem deleteMessage_spec_witness :
    deleteMessage dbSample (some 99) 10 = (⟨404, "Message not found"⟩, dbSample) ∧
    deleteMessage dbSample (some 1) 11 =
      (⟨403, "Not authorized to delete this message"⟩, dbSample) ∧
    (deleteMessage dbSample (some 1) 10).1.status = 200 ∧
    findMessage ((deleteMessage dbSample (some 1) 10).2) 1 =
      some { mDel with deleted := true } := by
  refine ⟨?_, ?_, ?_, ?_⟩
  · exact (deleteMessage_spec dbSample 99 10).1 (by decide)
  · exact (((deleteMessage_spec dbSample 1 11).2 mDel (by decide)).1 (by decide))
  · exact (((deleteMessage_spec dbSample 1 10).2 mDel (by decide)).2 (by decide)).1
  · exact (((deleteMessage_spec dbSample 1 10).2 mDel (by decide)).2 (by decide)).2.1

/-- C4: updateMemberRole fails 404 on an unknown channel, 403 when the actor
is not the current admin, 404 NotAMember when the target is not a member;
when the actor is the admin and the target is a member it succeeds in one
saved update that sets admin to the target and leaves the members list
unchanged, after which a rename by the new admin succeeds and a rename by
the old admin fails 403. -/
theorem updateMemberRole_spec (db : DB) (cid target actor : Nat) (newName : String) :
    (findChannel db cid = none →
      updateMemberRole db cid target actor = (⟨404, "Channel not found"⟩, db)) ∧
    (∀ ch, findChannel db cid = some ch →
      (ch.admin ≠ actor →
        updateMemberRole db cid target actor =
          (⟨403, "Only the admin can update roles"⟩, db)) ∧
      (ch.admin = actor → target ∉ ch.members →
        updateMemberRole db cid target actor = (⟨404, "User is not a member"⟩, db)) ∧
      (ch.admin = actor → target ∈ ch.members →
        (updateMemberRole db cid target actor).1.status = 200 ∧
        (updateMemberRole db cid target actor).2 =
          saveChannel db { ch with admin := target } ∧
        findChannel ((updateMemberRole db cid target actor).2) cid =
          some { ch with admin := target } ∧
        (changeGroupName ((updateMemberRole db cid target actor).2) cid
          newName target).1.status = 200 ∧
        (actor ≠ target →
          (changeGroupName ((updateMemberRole db cid target actor).2) cid
            newName actor).1.status = 403))) := by
  refine ⟨?_, ?_⟩
  · intro h
    simp [updateMemberRole, promoteStep, h]
  · intro ch hch
    have hcid : ch.id = cid := by
      have := List.find?_some hch
      simpa using this
    refine ⟨?_, ?_, ?_⟩
    · intro hne
      simp [updateMemberRole, promoteStep, hch]
      intro h
      exact absurd h hne
    · intro ha hnm
      subst ha
      simp [updateMemberRole, promoteStep, hch, hnm]
    · intro ha hm
      subst ha
      have hred : updateMemberRole db cid target ch.admin =
          (⟨200, "Member role updated successfully"⟩,
            saveChannel db { ch with admin := target }) := by
        simp [updateMemberRole, promoteStep, hch, hm]
      have hfc2 : findChannel (saveChannel db { ch with admin := target }) cid =
          some { ch with admin := target } :=
        findChannel_save db cid { ch with admin := target } hcid (by rw [hch]; rfl)
      refine ⟨by rw [hred], by rw [hred], by rw [hred]; exact hfc2, ?_, ?_⟩
      · rw [hred]
        simp [changeGroupName, hfc2]
      · intro hne
        rw [hred]
        have hne' : ¬(target = ch.admin) := fun h => hne h.symm
        simp [changeGroupName, hfc2, hne']

/-- C4 witness: in the sample store channel 1 has admin 10 and members
10, 11, 12; 10 promotes 11, after which a rename by 11 succeeds and a
rename by 10 fails 403; actor 11 cannot promote (403); target 99 is not a
member (404); channel 77 is unknown (404). -/
theorem updateMemberRole_spec_witness :
    updateMemberRole dbSample 77 11 10 = (⟨404, "Channel not found"⟩, dbSample) ∧
    updateMemberRole dbSample 1 12 11 =
      (⟨403, "Only the admin can update roles"⟩, dbSample) ∧
    updateMemberRole dbSample 1 99 10 = (⟨404, "User is not a member"⟩, dbSample) ∧
    (updateMemberRole dbSample 1 11 10).1.status = 200 ∧
    findChannel ((updateMemberRole dbSample 1 11 10).2) 1 =
      some { chTeam with admin := 11 } ∧
    (changeGroupName ((updateMemberRole dbSample 1 11 10).2) 1 "NewTeam" 11).1.status = 200 ∧
    (changeGroupName ((updateMemberRole dbSample 1 11 10).2) 1 "NewTeam" 10).1.status = 403 := by
  have hs := ((updateMemberRole_spec dbSample 1 11 10 "NewTeam").2 chTeam (by decide)).2.2
    rfl (by decide)
  refine ⟨?_, ?_, ?_, hs.1, hs.2.2.1, hs.2.2.2.1, hs.2.2.2.2 (by decide)⟩
  · exact (updateMemberRole_spec dbSample 77 11 10 "NewTeam").1 (by decide)
  · exact (((updateMemberRole_spec dbSample 1 12 11 "NewTeam").2 chTeam (by decide)).1
      (by decide))
  · exact (((updateMemberRole_spec dbSample 1 99 10 "NewTeam").2 chTeam (by decide)).2.1
      rfl (by decide))

/-- C9: addMember and removeMember never read the verified actor identity:
for any two actors the result and post-state coincide, and neither
operation can return 403 Forbidden on any input. -/
theorem memberOps_actor_independent (db : DB) (cid : Nat) (email : String)
    (a1 a2 : Nat) :
    addMember db cid email a1 = addMember db cid email a2 ∧
    removeMember db cid email a1 = removeMember db cid email a2 ∧
    (addMember db cid email a1).1.status ≠ 403 ∧
    (removeMember db cid email a1).1.status ≠ 403 := by
  refine ⟨rfl, rfl, ?_, ?_⟩
  · cases hfc : findChannel db cid with
    | none => simp [addMember, hfc]
    | some ch =>
      cases hfu : findUserByEmail db email with
      | none => simp [addMember, hfc, hfu]
      | some u =>
        by_cases h : u.id ∈ ch.members
        · simp [addMember, hfc, hfu, h]
        · simp [addMember, hfc, hfu, h]
  · cases hfc : findChannel db cid with
    | none => simp [removeMember, hfc]
    | some ch =>
      cases hfu : findUserByEmail db email with
      | none => simp [removeMember, hfc, hfu]
      | some u =>
        by_cases h : u.id ∈ ch.members
        · simp [removeMember, hfc, hfu, h]
        · simp [removeMember, hfc, hfu, h]

/-- C10 counterexample: two promotions of channel 1 (targets 11 and 12, both
invoked by the initial admin 10) interleaved read-read-write-write both
return status 200 — zero Conflict (409) results instead of exactly one —
and the second write commits even though the first had already changed the
admin field from 10 to 11: the final admin is 12. -/
theorem updateMemberRole_no_cas :
    (twoPromotionsInterleaved dbSample 1 11 10 12 10).1.status = 200 ∧
    (twoPromotionsInterleaved dbSample 1 11 10 12 10).2.1.status = 200 ∧
    (twoPromotionsInterleaved dbSample 1 11 10 12 10).1.status ≠ 409 ∧
    (twoPromotionsInterleaved dbSample 1 11 10 12 10).2.1.status ≠ 409 ∧
    (findChannel (promoteStep (findChannel dbSample 1) 11 10 dbSample).2 1).map
      Channel.admin = some 11 ∧
    (findChannel (twoPromotionsInterleaved dbSample 1 11 10 12 10).2.2 1).map
      Channel.admin = some 12 := by
  decide

/-- C10 (amended): updateMemberRole is a blind read-validate-write with no
compare-and-swap: it never returns 409 Conflict, and when two promotions of
the same channel interleave read-read-write-write, both actors being the
initial admin and both targets members, both report success and the second
write overwrites the first (final admin is the second target). -/
theorem updateMemberRole_blind_overwrite (db : DB) (cid t1 t2 a : Nat) :
    ((updateMemberRole db cid t1 a).1.status ≠ 409) ∧
    (∀ ch, findChannel db cid = some ch → ch.admin = a →
      t1 ∈ ch.members → t2 ∈ ch.members →
      (twoPromotionsInterleaved db cid t1 a t2 a).1.status = 200 ∧
      (twoPromotionsInterleaved db cid t1 a t2 a).2.1.status = 200 ∧
      findChannel (twoPromotionsInterleaved db cid t1 a t2 a).2.2 cid =
        some { ch with admin := t2 }) := by
  refine ⟨?_, ?_⟩
  · cases hfc : findChannel db cid with
    | none => simp [updateMemberRole, promoteStep, hfc]
    | some ch =>
      by_cases ha : ch.admin = a
      · by_cases hm : t1 ∈ ch.members
        · simp [updateMemberRole, promoteStep, hfc, ha, hm]
        · simp [updateMemberRole, promoteStep, hfc, ha, hm]
      · simp [updateMemberRole, promoteStep, hfc, ha]
  · intro ch hch ha hm1 hm2
    subst ha
    have hcid : ch.id = cid := by
      have := List.find?_some hch
      simpa using this
    have hstep1 : promoteStep (findChannel db cid) t1 ch.admin db =
        (⟨200, "Member role updated successfully"⟩,
          saveChannel db { ch with admin := t1 }) := by
      simp [promoteStep, hch, hm1]
    have hstep2 : promoteStep (findChannel db cid) t2 ch.admin
        (saveChannel db { ch with admin := t1 }) =
        (⟨200, "Member role updated successfully"⟩,
          saveChannel (saveChannel db { ch with admin := t1 })
            { ch with admin := t2 }) := by
      simp [promoteStep, hch, hm2]
    have hiso : (findChannel (saveChannel db { ch with admin := t1 }) cid).isSome := by
      rw [findChannel_save db cid { ch with admin := t1 } hcid (by rw [hch]; rfl)]
      rfl
    have hred : twoPromotionsInterleaved db cid t1 ch.admin t2 ch.admin =
        (⟨200, "Member role updated successfully"⟩,
          ⟨200, "Member role updated successfully"⟩,
          saveChannel (saveChannel db { ch with admin := t1 })
            { ch with admin := t2 }) := by
      unfold twoPromotionsInterleaved
      simp only [hstep1, hstep2]
    rw [hred]
    exact ⟨rfl, rfl,
      findChannel_save (saveChannel db { ch with admin := t1 }) cid
        { ch with admin := t2 } hcid hiso⟩

/-- C10 amended witness: the interleaved run on the sample store ends with
both promotions reporting success and channel 1 administered by 12. -/
theorem updateMemberRole_blind_overwrite_witness :
    (twoPromotionsInterleaved dbSample 1 11 10 12 10).1.status = 200 ∧
    (twoPromotionsInterleaved dbSample 1 11 10 12 10).2.1.status = 200 ∧
    findChannel (twoPromotionsInterleaved dbSample 1 11 10 12 10).2.2 1 =
      some { chTeam with admin := 12 } :=
  (updateMemberRole_blind_overwrite dbSample 1 11 12 10).2 chTeam (by decide)
    (by decide) (by decide) (by decide)

/-- C2 counterexample: replacing the photo of channel 2 succeeds and commits
the new path, yet the prior artifact old.png is still in storage after the
call returns — the unlink attempt threw TypeError and was swallowed — so
the claim that the prior artifact is deleted, and deleted only after the
commit, is false at this input: no deletion of the prior artifact ever
occurs. -/
theorem setGroupPhoto_never_deletes_old :
    (setGroupPhoto dbSample (some "uploads/channels/new.png") (some 2) 10 false).1 =
      PhotoOutcome.response ⟨200, "Group photo updated successfully"⟩ ∧
    findChannel
      (setGroupPhoto dbSample (some "uploads/channels/new.png") (some 2) 10 false).2.1 2 =
      some { chPhoto with photo := some "uploads/channels/new.png" } ∧
    "uploads/channels/old.png" ∈
      ((setGroupPhoto dbSample (some "uploads/channels/new.png") (some 2) 10 false).2.1).files ∧
    (setGroupPhoto dbSample (some "uploads/channels/new.png") (some 2) 10 false).2.2 =
      [FsEvent.unlinkThrow "uploads/channels/old.png",
        FsEvent.commit 2 "uploads/channels/new.png"] := by
  decide

/-- C2 (amended): when a previous photo exists, the successful path attempts
to unlink the prior artifact before committing the new path, but the
attempt always throws — the callback fs API is awaited without a callback —
and is caught and logged: the prior artifact is never deleted, storage is
unchanged, and only the new path is committed. -/
theorem setGroupPhoto_unlink_throws_order (db : DB) (f : String) (cid uid : Nat)
    (ch : Channel) (old : String) (hch : findChannel db cid = some ch)
    (ha : ch.admin = uid) (hp : ch.photo = some old) :
    setGroupPhoto db (some f) (some cid) uid false =
      (PhotoOutcome.response ⟨200, "Group photo updated successfully"⟩,
        saveChannel db { ch with photo := some f },
        [FsEvent.unlinkThrow old, FsEvent.commit cid f]) ∧
    ((setGroupPhoto db (some f) (some cid) uid false).2.1).files = db.files := by
  subst ha
  have h1 : setGroupPhoto db (some f) (some cid) ch.admin false =
      (PhotoOutcome.response ⟨200, "Group photo updated successfully"⟩,
        saveChannel db { ch with photo := some f },
        [FsEvent.unlinkThrow old, FsEvent.commit cid f]) := by
    simp [setGroupPhoto, hch, hp]
  exact ⟨h1, by rw [h1]; rfl⟩

/-- C2 amended witness: the concrete replacement on channel 2 produces the
failed-unlink-attempt-then-commit trace and leaves storage untouched. -/
theorem setGroupPhoto_unlink_throws_order_witness :
    setGroupPhoto dbSample (some "uploads/channels/new.png") (some 2) 10 false =
      (PhotoOutcome.response ⟨200, "Group photo updated successfully"⟩,
        saveChannel dbSample { chPhoto with photo := some "uploads/channels/new.png" },
        [FsEvent.unlinkThrow "uploads/channels/old.png",
          FsEvent.commit 2 "uploads/channels/new.png"]) ∧
    ((setGroupPhoto dbSample (some "uploads/channels/new.png") (some 2) 10 false).2.1).files =
      dbSample.files :=
  setGroupPhoto_unlink_throws_order dbSample "uploads/channels/new.png" 2 10 chPhoto
    "uploads/channels/old.png" (by decide) (by decide) (by decide)

/-- C3: the cleanup contract is broken in the source because every awaited
callback-fs unlink throws TypeError: a channel-not-found request returns
500 instead of 404 and a non-admin request returns 500 instead of 403 —
the failed cleanup replaces the primary error via the catch block — a
missing-channelId request sends no response at all, and in each case the
staged artifact new.png survives in storage, orphaned by the failed
request. -/
theorem setGroupPhoto_orphans_staged :
    setGroupPhoto dbSample (some "uploads/channels/new.png") (some 77) 10 false =
      (PhotoOutcome.response ⟨500, "Internal server error"⟩, dbSample,
        [FsEvent.unlinkThrow "uploads/channels/new.png",
          FsEvent.unlinkThrow "uploads/channels/new.png"]) ∧
    setGroupPhoto dbSample (some "uploads/channels/new.png") (some 2) 11 false =
      (PhotoOutcome.response ⟨500, "Internal server error"⟩, dbSample,
        [FsEvent.unlinkThrow "uploads/channels/new.png",
          FsEvent.unlinkThrow "uploads/channels/new.png"]) ∧
    setGroupPhoto dbSample (some "uploads/channels/new.png") none 10 false =
      (PhotoOutcome.noResponse, dbSample,
        [FsEvent.unlinkThrow "uploads/channels/new.png"]) ∧
    "uploads/channels/new.png" ∈
      ((setGroupPhoto dbSample (some "uploads/channels/new.png") (some 77) 10 false).2.1).files := by
  decide

/-- C8: createChannel fails InvalidActor (400, admin user not found) when
the creator id resolves to no user, leaving the store unchanged; when the
creator resolves but some member id resolves to no user (ids being unique
across stored users) it fails InvalidMembers (400) with the store again
unchanged; and whenever it reports 201 the only change is the appended
channel with admin = creator and members = the supplied member ids. -/
theorem createChannel_spec (db : DB) (name : String) (members : List Nat)
    (uid newId : Nat) :
    (findUser db uid = none →
      createChannel db name members uid newId = (⟨400, "Admin user not found."⟩, db)) ∧
    (∀ a, findUser db uid = some a → (db.users.map User.id).Nodup →
      (∃ m, m ∈ members ∧ findUser db m = none) →
      createChannel db name members uid newId =
        (⟨400, "Some members are not valid users."⟩, db)) ∧
    ((createChannel db name members uid newId).1.status = 201 →
      (createChannel db name members uid newId).2 =
        { db with channels := db.channels ++ [⟨newId, name, uid, members, none, []⟩] }) := by
  refine ⟨?_, ?_, ?_⟩
  · intro h
    simp [createChannel, h]
  · intro a ha hnd hbad
    obtain ⟨m, hm, hmnone⟩ := hbad
    rw [findUser, List.find?_eq_none] at hmnone
    have hLnodup : ((db.users.filter (fun u => members.contains u.id)).map User.id).Nodup :=
      List.Nodup.sublist ((List.filter_sublist _).map User.id) hnd
    have hLsub : ∀ x ∈ (db.users.filter (fun u => members.contains u.id)).map User.id,
        x ∈ members := by
      intro x hx
      rw [List.mem_map] at hx
      obtain ⟨u, hu, rfl⟩ := hx
      rw [List.mem_filter] at hu
      simpa using hu.2
    have hmnot : m ∉ (db.users.filter (fun u => members.contains u.id)).map User.id := by
      intro hmL
      rw [List.mem_map] at hmL
      obtain ⟨u, hu, hum⟩ := hmL
      rw [List.mem_filter] at hu
      exact hmnone u hu.1 (by simp [hum])
    have hss : ((db.users.filter (fun u => members.contains u.id)).map User.id).toFinset ⊂
        members.toFinset := by
      rw [Finset.ssubset_iff_of_subset]
      · exact ⟨m, by rw [List.mem_toFinset]; exact hm, by rw [List.mem_toFinset]; exact hmnot⟩
      · intro x hx
        rw [List.mem_toFinset] at hx ⊢
        exact hLsub x hx
    have hlt : (db.users.filter (fun u => members.contains u.id)).length < members.length := by
      have h1 := Finset.card_lt_card hss
      rw [List.toFinset_card_of_nodup hLnodup, List.length_map] at h1
      exact lt_of_lt_of_le h1 (List.toFinset_card_le members)
    have hfun : (fun u : User => members.contains u.id) =
        (fun u : User => decide (u.id ∈ members)) := by
      funext u
      simp
    rw [hfun] at hlt
    simp [createChannel, ha]
    omega
  · intro h
    cases hfu : findUser db uid with
    | none => simp [createChannel, hfu] at h
    | some a =>
      have hfun : (fun u : User => members.contains u.id) =
          (fun u : User => decide (u.id ∈ members)) := by
        funext u
        simp
      by_cases hb : (db.users.filter (fun u => decide (u.id ∈ members))).length =
          members.length
      · simp [createChannel, hfu, hfun, hb]
      · exfalso
        simp [createChannel, hfu, hfun, hb] at h

/-- C8 witness: creator 99 is unknown (InvalidActor, store unchanged);
member 99 is unknown (InvalidMembers, store unchanged); creating with
members 11 and 12 succeeds and appends exactly the new channel. -/
theorem createChannel_spec_witness :
    createChannel dbSample "X" [11] 99 7 = (⟨400, "Admin user not found."⟩, dbSample) ∧
    createChannel dbSample "X" [11, 99] 10 7 =
      (⟨400, "Some members are not valid users."⟩, dbSample) ∧
    (createChannel dbSample "X" [11, 12] 10 7).2 =
      { dbSample with channels := dbSample.channels ++ [⟨7, "X", 10, [11, 12], none, []⟩] } := by
  refine ⟨?_, ?_, ?_⟩
  · exact (createChannel_spec dbSample "X" [11] 99 7).1 (by decide)
  · exact (createChannel_spec dbSample "X" [11, 99] 10 7).2.1 uA (by decide) (by decide)
      ⟨99, by decide, by decide⟩
  · exact (createChannel_spec dbSample "X" [11, 12] 10 7).2.2 (by decide)

end ChatServer
